import Mathlib

/-!
Verification development for the snapshot-and-mirror subsystem of the
pendo-io/rrweb recording library.  The repository sources available here are
the unit-test files of the subsystem; the functions under test
(`StyleSheetMirror`, `getNestedRule`, `absolutifyURLs`, `isNodeMetaEqual`,
`escapeImportStatement`, `extractFileExtension`, the shadow resolver and the
redaction / stylesheet-reconstruction paths of `serializeNodeWithId`) are
therefore modelled from the specification, with their observable behavior
pinned by the expectations recorded in the test files.
-/

set_option maxRecDepth 100000

/-- Association-list lookup used to model the JavaScript `Map`/`WeakMap`
and attribute objects of the source: returns the value of the first pair
whose key matches. -/
def alookup {α β : Type} [DecidableEq α] : List (α × β) → α → Option β
  | [], _ => none
  | (k, v) :: rest, key => if k = key then some v else alookup rest key

theorem alookup_append_of_isSome {α β : Type} [DecidableEq α]
    (a b : List (α × β)) (k : α) (h : (alookup a k).isSome) :
    alookup (a ++ b) k = alookup a k := by
  induction a with
  | nil => simp [alookup] at h
  | cons p rest ih =>
    by_cases hk : p.1 = k
    · simp [alookup, hk]
    · simp only [alookup, hk, if_neg, List.cons_append] at *
      exact ih h

theorem alookup_append_of_none {α β : Type} [DecidableEq α]
    (a b : List (α × β)) (k : α) (h : alookup a k = none) :
    alookup (a ++ b) k = alookup b k := by
  induction a with
  | nil => simp [alookup]
  | cons p rest ih =>
    by_cases hk : p.1 = k
    · simp [alookup, hk] at h
    · simp only [alookup, hk, if_neg, List.cons_append] at *
      exact ih h

/-- Modelled from the spec (§4.2): the `StyleSheetMirror` class is not
present in the test-only sources.  Per the spec it is an id⇄stylesheet
bijection whose id counter starts at 1; `add` may take an explicit id.
Stylesheet objects are modelled as natural-number identities, the two
`Map`s as association lists, `id` is the next-sequential-id counter. -/
structure StyleSheetMirror where
  id : Nat
  styleIDMap : List (Nat × Nat)
  idStyleMap : List (Nat × Nat)
deriving DecidableEq, Repr

/-- A freshly constructed `StyleSheetMirror`: counter starts at the initial id 1. -/
def StyleSheetMirror.init : StyleSheetMirror :=
  { id := 1, styleIDMap := [], idStyleMap := [] }

/-- Modelled from the spec: `getId(sheet)` returns the mirrored id or the
sentinel −1 when the sheet is unmirrored. -/
def StyleSheetMirror.getId (m : StyleSheetMirror) (sheet : Nat) : Int :=
  match alookup m.styleIDMap sheet with
  | some i => Int.ofNat i
  | none => -1

/-- Modelled from the spec: `has(sheet)` is true iff the sheet was added
since the last reset. -/
def StyleSheetMirror.has (m : StyleSheetMirror) (sheet : Nat) : Bool :=
  (alookup m.styleIDMap sheet).isSome

/-- Modelled from the spec: `add(sheet, explicitId?)` returns the existing id
unchanged when the sheet is already mirrored; otherwise stores the sheet
under the explicit id when one is given, else under the next sequential id
(advancing the counter), and returns the assigned id together with the
updated mirror state. -/
def StyleSheetMirror.add (m : StyleSheetMirror) (sheet : Nat)
    (explicitId : Option Nat) : Nat × StyleSheetMirror :=
  match alookup m.styleIDMap sheet with
  | some i => (i, m)
  | none =>
    match explicitId with
    | some i =>
      (i, { m with styleIDMap := (sheet, i) :: m.styleIDMap,
                   idStyleMap := (i, sheet) :: m.idStyleMap })
    | none =>
      (m.id, { id := m.id + 1,
               styleIDMap := (sheet, m.id) :: m.styleIDMap,
               idStyleMap := (m.id, sheet) :: m.idStyleMap })

/-- Modelled from the spec: `getStyle(id)` returns the mirrored sheet or
null (`none`) when the id is unknown. -/
def StyleSheetMirror.getStyle (m : StyleSheetMirror) (i : Nat) : Option Nat :=
  alookup m.idStyleMap i

/-- Modelled from the spec: `reset()` clears both maps (including the
id→sheet reverse index) and restarts the counter at its initial value. -/
def StyleSheetMirror.reset (_ : StyleSheetMirror) : StyleSheetMirror :=
  StyleSheetMirror.init

/-- Applies a sequence of `add` calls (sheet, optional explicit id) to a
mirror, yielding the final mirror state; used to range over every state
reachable by `add` calls. -/
def StyleSheetMirror.applyAdds (m : StyleSheetMirror) :
    List (Nat × Option Nat) → StyleSheetMirror
  | [] => m
  | (s, eid) :: rest => ((m.add s eid).2).applyAdds rest

/-- Claim C3: for the StyleSheetMirror, `has sheet` is false before the first
`add sheet` and true afterwards; `add` without an explicit id assigns
sequential ids starting at 1 (the fresh counter is 1 and each unseen add
returns the current counter value and advances it by one); and `add` is
idempotent: the second `add` of the same sheet returns the same id and
leaves the mirror state — in particular the id counter — unchanged. -/
theorem styleSheetMirror_add_props :
    (∀ s : Nat, StyleSheetMirror.init.has s = false) ∧
    StyleSheetMirror.init.id = 1 ∧
    (∀ (m : StyleSheetMirror) (s : Nat), ((m.add s none).2).has s = true) ∧
    (∀ (m : StyleSheetMirror) (s : Nat), m.has s = false →
      (m.add s none).1 = m.id ∧ ((m.add s none).2).id = m.id + 1) ∧
    (∀ (m : StyleSheetMirror) (s : Nat),
      ((m.add s none).2).add s none = ((m.add s none).1, (m.add s none).2)) := by
  refine ⟨?_, rfl, ?_, ?_, ?_⟩
  · intro s
    simp [StyleSheetMirror.init, StyleSheetMirror.has, alookup]
  · intro m s
    unfold StyleSheetMirror.add
    cases h : alookup m.styleIDMap s with
    | some i => simp [StyleSheetMirror.has, h]
    | none => simp [StyleSheetMirror.has, alookup]
  · intro m s h
    unfold StyleSheetMirror.has at h
    unfold StyleSheetMirror.add
    cases hl : alookup m.styleIDMap s with
    | some i => rw [hl] at h; simp at h
    | none => exact ⟨rfl, rfl⟩
  · intro m s
    unfold StyleSheetMirror.add
    cases hl : alookup m.styleIDMap s with
    | some i => simp [hl]
    | none => simp [alookup]

/-- Claim C3 witness: concrete run — a fresh mirror does not have sheet 7,
the first add of sheet 7 returns id 1 and advances the counter to 2, and
re-adding sheet 7 returns the same id with the state unchanged. -/
theorem styleSheetMirror_add_props_witness :
    StyleSheetMirror.init.has 7 = false ∧
    (StyleSheetMirror.init.add 7 none).1 = 1 ∧
    ((StyleSheetMirror.init.add 7 none).2).id = 2 ∧
    ((StyleSheetMirror.init.add 7 none).2).add 7 none =
      ((StyleSheetMirror.init.add 7 none).1, (StyleSheetMirror.init.add 7 none).2) := by
  obtain ⟨h1, h2, h3, h4, h5⟩ := styleSheetMirror_add_props
  refine ⟨h1 7, ?_, ?_, h5 StyleSheetMirror.init 7⟩
  · have := (h4 StyleSheetMirror.init 7 (h1 7)).1
    rw [this, h2]
  · have := (h4 StyleSheetMirror.init 7 (h1 7)).2
    rw [this, h2]

/-- Claim C4: for every mirror state reachable by any sequence of `add`
calls, after `reset()` every previously mirrored sheet's `has` is false,
`getStyle` of every previously valid id is null, and the very next `add`
of any sheet returns the initial id 1. -/
theorem styleSheetMirror_reset_props (ops : List (Nat × Option Nat))
    (s i t : Nat) :
    ((StyleSheetMirror.init.applyAdds ops).has s = true →
      ((StyleSheetMirror.init.applyAdds ops).reset).has s = false) ∧
    ((StyleSheetMirror.init.applyAdds ops).getStyle i ≠ none →
      ((StyleSheetMirror.init.applyAdds ops).reset).getStyle i = none) ∧
    (((StyleSheetMirror.init.applyAdds ops).reset).add t none).1 = 1 := by
  refine ⟨?_, ?_, ?_⟩
  · intro _
    simp [StyleSheetMirror.reset, StyleSheetMirror.init, StyleSheetMirror.has, alookup]
  · intro _
    simp [StyleSheetMirror.reset, StyleSheetMirror.init, StyleSheetMirror.getStyle, alookup]
  · simp [StyleSheetMirror.reset, StyleSheetMirror.init, StyleSheetMirror.add, alookup]

/-- Claim C4 witness: after adding sheets 3 and 4 (ids 1 and 2) and
resetting, `has 3` is false, `getStyle 1` is null, and the next add of
sheet 9 returns the initial id 1. -/
theorem styleSheetMirror_reset_props_witness :
    ((StyleSheetMirror.init.applyAdds [(3, none), (4, none)]).reset).has 3 = false ∧
    ((StyleSheetMirror.init.applyAdds [(3, none), (4, none)]).reset).getStyle 1 = none ∧
    (((StyleSheetMirror.init.applyAdds [(3, none), (4, none)]).reset).add 9 none).1 = 1 := by
  obtain ⟨h1, h2, h3⟩ := styleSheetMirror_reset_props [(3, none), (4, none)] 3 1 9
  exact ⟨h1 (by decide), h2 (by decide), h3⟩

/-- Modelled from the spec (§3, §4.5): CSS rules form a tree — leaf style
rules, and grouping rules (`@media`, `@supports`, …) that expose an ordered
list of nested sub-rules.  Each rule carries its selector/condition text. -/
inductive CSSRule : Type where
  | style (selectorText : String)
  | grouping (conditionText : String) (cssRules : List CSSRule)

/-- Modelled from the spec (§4.5): `getNestedRule` is not present in the
test-only sources.  Per the spec it indexes into `rules[path[0]]`; if more
path segments remain the resolved rule must expose its own sub-rule list
and resolution continues with the remaining path into that list.  An
out-of-range index, indexing into a non-grouping rule, or an empty path is
a caller error, modelled as `none`. -/
def getNestedRule : List CSSRule → List Nat → Option CSSRule
  | _, [] => none
  | rules, [i] => rules[i]?
  | rules, i :: rest =>
    match rules[i]? with
    | some (CSSRule.grouping _ subs) => getNestedRule subs rest
    | _ => none

/-- Claim C5: `getNestedRule rules [i]` is the rule at top-level index `i`;
`getNestedRule rules [i, j]` is the j-th sub-rule of the grouping rule at
index `i` (for a grouping rule at any top-level index); and resolution
continues analogously at depth 3 through two levels of grouping rules. -/
theorem getNestedRule_resolves (rules subs subs2 : List CSSRule)
    (c c2 : String) (i j k : Nat) :
    (getNestedRule rules [i] = rules[i]?) ∧
    (rules[i]? = some (CSSRule.grouping c subs) →
      getNestedRule rules [i, j] = subs[j]?) ∧
    (rules[i]? = some (CSSRule.grouping c subs) →
      subs[j]? = some (CSSRule.grouping c2 subs2) →
      getNestedRule rules [i, j, k] = subs2[k]?) := by
  refine ⟨rfl, ?_, ?_⟩
  · intro h
    simp [getNestedRule, h]
  · intro h h2
    simp [getNestedRule, h, h2]

/-- Claim C5 witness: in a container holding a plain rule at index 0 and an
`@media` rule at index 1 whose first sub-rule is an `@supports` rule, the
paths `[1]`, `[1, 0]` and `[1, 0, 0]` resolve to the expected rules. -/
theorem getNestedRule_resolves_witness :
    (getNestedRule
      [CSSRule.style ".top-level",
       CSSRule.grouping "(min-width: 100px)"
         [CSSRule.grouping "(display: grid)" [CSSRule.style ".nested-rule"]]]
      [1] = some (CSSRule.grouping "(min-width: 100px)"
         [CSSRule.grouping "(display: grid)" [CSSRule.style ".nested-rule"]])) ∧
    (getNestedRule
      [CSSRule.style ".top-level",
       CSSRule.grouping "(min-width: 100px)"
         [CSSRule.grouping "(display: grid)" [CSSRule.style ".nested-rule"]]]
      [1, 0] = some (CSSRule.grouping "(display: grid)" [CSSRule.style ".nested-rule"])) ∧
    (getNestedRule
      [CSSRule.style ".top-level",
       CSSRule.grouping "(min-width: 100px)"
         [CSSRule.grouping "(display: grid)" [CSSRule.style ".nested-rule"]]]
      [1, 0, 0] = some (CSSRule.style ".nested-rule")) := by
  obtain ⟨h1, h2, h3⟩ := getNestedRule_resolves
    [CSSRule.style ".top-level",
     CSSRule.grouping "(min-width: 100px)"
       [CSSRule.grouping "(display: grid)" [CSSRule.style ".nested-rule"]]]
    [CSSRule.grouping "(display: grid)" [CSSRule.style ".nested-rule"]]
    [CSSRule.style ".nested-rule"]
    "(min-width: 100px)" "(display: grid)" 1 0 0
  refine ⟨?_, ?_, ?_⟩
  · exact h1.trans rfl
  · exact (h2 rfl).trans rfl
  · exact (h3 rfl rfl).trans rfl

/-- Modelled from the spec (§3): a serialized node is a tagged variant over
Document / DocumentType / Element / Text / Comment / CDATA carrying the
type-specific fields (compatibility mode; name/publicId/systemId; tag name,
attribute mapping and ordered child list; raw text). -/
inductive SerializedNode : Type where
  | document (compatMode : String) (childNodes : List SerializedNode)
  | documentType (name publicId systemId : String)
  | element (tagName : String) (attributes : List (String × String))
      (childNodes : List SerializedNode)
  | text (textContent : String)
  | cdata (textContent : String)
  | comment (textContent : String)

/-- The numeric node-type tag of a serialized node (the `NodeType` enum of
the source: Document 0, DocumentType 1, Element 2, Text 3, CDATA 4,
Comment 5). -/
def SerializedNode.typeTag : SerializedNode → Nat
  | .document _ _ => 0
  | .documentType _ _ _ => 1
  | .element _ _ _ => 2
  | .text _ => 3
  | .cdata _ => 4
  | .comment _ => 5

/-- Order-independent by-value equality of two attribute mappings: every
binding of each side is the binding the other side holds for that key. -/
def attrsEqual (a b : List (String × String)) : Bool :=
  a.all (fun p => alookup b p.1 == some p.2) &&
  b.all (fun p => alookup a p.1 == some p.2)

/-- An attribute mapping is well formed when no key is bound twice. -/
def attrsWellFormed : List (String × String) → Bool
  | [] => true
  | (k, _) :: rest => (alookup rest k).isNone && attrsWellFormed rest

/-- A serialized node is well formed when its own attribute mapping (for an
Element) binds no key twice; other node kinds carry no attribute mapping. -/
def SerializedNode.wellFormed : SerializedNode → Bool
  | .element _ attrs _ => attrsWellFormed attrs
  | _ => true

/-- Modelled from the spec (§4.6): `isNodeMetaEqual` is not present in the
test-only sources.  Per the spec it is false if either input is absent or
the type tags differ; Document compares the compatibility mode,
DocumentType compares name/publicId/systemId, Text/Comment/CDATA compare
the exact text content, Element compares tag name and the attribute
mapping by value (order-independent) with child lists excluded. -/
def isNodeMetaEqual : Option SerializedNode → Option SerializedNode → Bool
  | none, _ => false
  | _, none => false
  | some a, some b =>
    match a, b with
    | .document ca _, .document cb _ => ca == cb
    | .documentType na pa sa, .documentType nb pb sb =>
      na == nb && pa == pb && sa == sb
    | .text ta, .text tb => ta == tb
    | .cdata ta, .cdata tb => ta == tb
    | .comment ta, .comment tb => ta == tb
    | .element ta aa _, .element tb ab _ => ta == tb && attrsEqual aa ab
    | _, _ => false

theorem alookup_isSome_of_mem {α β : Type} [DecidableEq α]
    (l : List (α × β)) (p : α × β) (hp : p ∈ l) :
    (alookup l p.1).isSome := by
  induction l with
  | nil => cases hp
  | cons q rest ih =>
    rcases List.mem_cons.mp hp with heq | hmem
    · subst heq
      simp [alookup]
    · by_cases hk : q.1 = p.1
      · simp [alookup, hk]
      · simpa [alookup, hk] using ih hmem

theorem alookup_mem_of_wellFormed (attrs : List (String × String))
    (h : attrsWellFormed attrs = true) (p : String × String)
    (hp : p ∈ attrs) : alookup attrs p.1 = some p.2 := by
  induction attrs with
  | nil => cases hp
  | cons q rest ih =>
    simp only [attrsWellFormed, Bool.and_eq_true] at h
    rcases List.mem_cons.mp hp with heq | hmem
    · subst heq
      simp [alookup]
    · have hne : q.1 ≠ p.1 := by
        intro hk
        have hs := alookup_isSome_of_mem rest p hmem
        rw [← hk] at hs
        rw [Option.isNone_iff_eq_none] at h
        rw [h.1] at hs
        simp at hs
      obtain ⟨hq1, hq2⟩ := h
      simpa [alookup, hne] using ih hq2 hmem

theorem attrsEqual_refl (attrs : List (String × String))
    (h : attrsWellFormed attrs = true) : attrsEqual attrs attrs = true := by
  simp only [attrsEqual, Bool.and_self, List.all_eq_true]
  intro p hp
  simp [alookup_mem_of_wellFormed attrs h p hp]

/-- Claim C7: `isNodeMetaEqual` is false whenever either input is absent or
the type tags differ; it is reflexive on well-formed serialized nodes;
Document nodes compare by compatMode, DocumentType nodes by
name/publicId/systemId, Text and Comment nodes by exact text content; and
Element nodes compare tag name and attribute mapping by value while
ignoring child lists entirely, so a tag-name or attribute difference
yields false but differing childNodes alone do not. -/
theorem isNodeMetaEqual_props :
    (∀ b, isNodeMetaEqual none b = false) ∧
    (∀ a, isNodeMetaEqual a none = false) ∧
    (∀ a b, a.typeTag ≠ b.typeTag →
      isNodeMetaEqual (some a) (some b) = false) ∧
    (∀ n, n.wellFormed = true → isNodeMetaEqual (some n) (some n) = true) ∧
    (∀ ca ka cb kb, isNodeMetaEqual (some (SerializedNode.document ca ka))
      (some (SerializedNode.document cb kb)) = (ca == cb)) ∧
    (∀ na pa sa nb pb sb,
      isNodeMetaEqual (some (SerializedNode.documentType na pa sa))
        (some (SerializedNode.documentType nb pb sb)) =
        (na == nb && pa == pb && sa == sb)) ∧
    (∀ ta tb, isNodeMetaEqual (some (SerializedNode.text ta))
      (some (SerializedNode.text tb)) = (ta == tb)) ∧
    (∀ ta tb, isNodeMetaEqual (some (SerializedNode.comment ta))
      (some (SerializedNode.comment tb)) = (ta == tb)) ∧
    (∀ ta aa ka tb ab kb,
      isNodeMetaEqual (some (SerializedNode.element ta aa ka))
        (some (SerializedNode.element tb ab kb)) =
        (ta == tb && attrsEqual aa ab)) := by
  refine ⟨?_, ?_, ?_, ?_, ?_, ?_, ?_, ?_, ?_⟩
  · intro b
    cases b <;> rfl
  · intro a
    cases a <;> rfl
  · intro a b h
    cases a <;> cases b <;>
      simp [SerializedNode.typeTag, isNodeMetaEqual] at h ⊢
  · intro n h
    cases n with
    | document c k => simp [isNodeMetaEqual]
    | documentType na pa sa => simp [isNodeMetaEqual]
    | element t attrs k =>
      simp only [SerializedNode.wellFormed] at h
      simp [isNodeMetaEqual, attrsEqual_refl attrs h]
    | text t => simp [isNodeMetaEqual]
    | cdata t => simp [isNodeMetaEqual]
    | comment t => simp [isNodeMetaEqual]
  · intro ca ka cb kb
    rfl
  · intro na pa sa nb pb sb
    rfl
  · intro ta tb
    rfl
  · intro ta tb
    rfl
  · intro ta aa ka tb ab kb
    rfl

/-- Claim C7 witness: concrete instances — comparing absent inputs and a
Document against an Element yields false; a well-formed div element is
meta-equal to itself; two div elements that differ only in child lists are
meta-equal, while a class-attribute difference yields false. -/
theorem isNodeMetaEqual_props_witness :
    isNodeMetaEqual none (some (SerializedNode.text "Hello World")) = false ∧
    isNodeMetaEqual (some (SerializedNode.document "CSS1Compat" [])) none = false ∧
    isNodeMetaEqual (some (SerializedNode.document "CSS1Compat" []))
      (some (SerializedNode.element "div" [("class", "test")] [])) = false ∧
    isNodeMetaEqual (some (SerializedNode.element "div" [("class", "test")] []))
      (some (SerializedNode.element "div" [("class", "test")] [])) = true ∧
    isNodeMetaEqual (some (SerializedNode.element "div" [("class", "test")] []))
      (some (SerializedNode.element "div" [("class", "test")]
        [SerializedNode.comment "Hello World"])) = true ∧
    isNodeMetaEqual (some (SerializedNode.element "div" [("class", "test")] []))
      (some (SerializedNode.element "div" [("class", "other")] [])) = false := by
  obtain ⟨h1, h2, h3, h4, h5, h6, h7, h8, h9⟩ := isNodeMetaEqual_props
  refine ⟨h1 _, h2 _, ?_, ?_, ?_, ?_⟩
  · exact h3 (SerializedNode.document "CSS1Compat" [])
      (SerializedNode.element "div" [("class", "test")] []) (by decide)
  · exact h4 (SerializedNode.element "div" [("class", "test")] []) (by decide)
  · exact (h9 "div" [("class", "test")] [] "div" [("class", "test")]
      [SerializedNode.comment "Hello World"]).trans (by decide)
  · exact (h9 "div" [("class", "test")] [] "div" [("class", "other")] []).trans
      (by decide)

/-- Modelled from the spec (§3, §4.7): the inputs of `serializeNodeWithId`
relevant to redaction of one element — its tag name, markup attributes,
live layout dimensions, and whether it matches the configured block
criterion (blockClass/blockSelector) and the hide selector.  Selector
matching itself happens in the browser, so the two match results are
carried as fields. -/
structure ElementInput where
  tagName : String
  attributes : List (String × String)
  width : Nat
  height : Nat
  matchesBlock : Bool
  matchesHide : Bool
  children : List SerializedNode

/-- Modelled from the spec (§4.7): the redaction path of
`serializeNodeWithId`, whose implementation is not in the test-only
sources.  A blocked-and-hidden element still emits its own node with its
attributes preserved but synthesizes `rr_display="none"` and omits the
dimension attributes; a blocked-only element synthesizes
`rr_width`/`rr_height` from live layout measurement and serializes no
children; otherwise (including hide-only) the element serializes
normally. -/
def serializeNodeWithId (e : ElementInput) : SerializedNode :=
  if e.matchesBlock && e.matchesHide then
    SerializedNode.element e.tagName
      (e.attributes ++ [("rr_display", "none")]) []
  else if e.matchesBlock then
    SerializedNode.element e.tagName
      (e.attributes ++ [("rr_width", toString e.width ++ "px"),
                        ("rr_height", toString e.height ++ "px")]) []
  else
    SerializedNode.element e.tagName e.attributes e.children

/-- The attribute mapping of a serialized node (empty for node kinds that
carry none). -/
def SerializedNode.attrs : SerializedNode → List (String × String)
  | .element _ attributes _ => attributes
  | _ => []

/-- Claim C1: redaction precedence in `serializeNodeWithId`, for any element
whose own markup carries none of the synthetic attribute names: matching
both the block and the hide selector serializes with `rr_display="none"`,
with neither `rr_width` nor `rr_height` defined, and with every existing
attribute (such as `class`) preserved; matching only the block selector
serializes with `rr_width` and `rr_height` defined and no `rr_display`;
matching only the hide selector serializes with none of the synthetic
attributes. -/
theorem serializeNodeWithId_redaction (e : ElementInput)
    (hd : alookup e.attributes "rr_display" = none)
    (hw : alookup e.attributes "rr_width" = none)
    (hh : alookup e.attributes "rr_height" = none) :
    (e.matchesBlock = true → e.matchesHide = true →
      alookup (serializeNodeWithId e).attrs "rr_display" = some "none" ∧
      alookup (serializeNodeWithId e).attrs "rr_width" = none ∧
      alookup (serializeNodeWithId e).attrs "rr_height" = none ∧
      (∀ k v, alookup e.attributes k = some v →
        alookup (serializeNodeWithId e).attrs k = some v)) ∧
    (e.matchesBlock = true → e.matchesHide = false →
      (alookup (serializeNodeWithId e).attrs "rr_width").isSome = true ∧
      (alookup (serializeNodeWithId e).attrs "rr_height").isSome = true ∧
      alookup (serializeNodeWithId e).attrs "rr_display" = none) ∧
    (e.matchesBlock = false →
      (serializeNodeWithId e).attrs = e.attributes ∧
      alookup (serializeNodeWithId e).attrs "rr_display" = none ∧
      alookup (serializeNodeWithId e).attrs "rr_width" = none ∧
      alookup (serializeNodeWithId e).attrs "rr_height" = none) := by
  refine ⟨?_, ?_, ?_⟩
  · intro hb hhide
    have hred : (serializeNodeWithId e).attrs =
        e.attributes ++ [("rr_display", "none")] := by
      simp [serializeNodeWithId, hb, hhide, SerializedNode.attrs]
    rw [hred]
    refine ⟨?_, ?_, ?_, ?_⟩
    · rw [alookup_append_of_none _ _ _ hd]
      simp [alookup]
    · rw [alookup_append_of_none _ _ _ hw]
      simp [alookup]
    · rw [alookup_append_of_none _ _ _ hh]
      simp [alookup]
    · intro k v hkv
      have hs : (alookup e.attributes k).isSome := by
        rw [hkv]; rfl
      rw [alookup_append_of_isSome _ _ _ hs]
      exact hkv
  · intro hb hhide
    have hred : (serializeNodeWithId e).attrs =
        e.attributes ++ [("rr_width", toString e.width ++ "px"),
                         ("rr_height", toString e.height ++ "px")] := by
      simp [serializeNodeWithId, hb, hhide, SerializedNode.attrs]
    rw [hred]
    refine ⟨?_, ?_, ?_⟩
    · rw [alookup_append_of_none _ _ _ hw]
      simp [alookup]
    · rw [alookup_append_of_none _ _ _ hh]
      simp [alookup]
    · rw [alookup_append_of_none _ _ _ hd]
      simp [alookup]
  · intro hb
    have hred : (serializeNodeWithId e).attrs = e.attributes := by
      simp [serializeNodeWithId, hb, SerializedNode.attrs]
    rw [hred]
    exact ⟨rfl, hd, hw, hh⟩

/-- Claim C1 witness: a div with classes `foo bar sensitive` matching both
selectors gets `rr_display="none"`, no dimension attributes, and keeps its
class attribute; matching only the block selector it gets both dimension
attributes and no `rr_display`; matching only the hide selector it gets
none of the synthetic attributes. -/
theorem serializeNodeWithId_redaction_witness :
    (alookup (serializeNodeWithId
      { tagName := "div", attributes := [("class", "foo bar sensitive")],
        width := 100, height := 50, matchesBlock := true, matchesHide := true,
        children := [] }).attrs "rr_display" = some "none" ∧
     alookup (serializeNodeWithId
      { tagName := "div", attributes := [("class", "foo bar sensitive")],
        width := 100, height := 50, matchesBlock := true, matchesHide := true,
        children := [] }).attrs "rr_width" = none ∧
     alookup (serializeNodeWithId
      { tagName := "div", attributes := [("class", "foo bar sensitive")],
        width := 100, height := 50, matchesBlock := true, matchesHide := true,
        children := [] }).attrs "class" = some "foo bar sensitive") ∧
    ((alookup (serializeNodeWithId
      { tagName := "div", attributes := [("class", "blocked")],
        width := 100, height := 50, matchesBlock := true, matchesHide := false,
        children := [] }).attrs "rr_width").isSome = true ∧
     alookup (serializeNodeWithId
      { tagName := "div", attributes := [("class", "blocked")],
        width := 100, height := 50, matchesBlock := true, matchesHide := false,
        children := [] }).attrs "rr_display" = none) ∧
    alookup (serializeNodeWithId
      { tagName := "div", attributes := [("class", "sensitive")],
        width := 100, height := 50, matchesBlock := false, matchesHide := true,
        children := [] }).attrs "rr_display" = none := by
  refine ⟨?_, ?_, ?_⟩
  · obtain ⟨h1, _, _⟩ := serializeNodeWithId_redaction
      { tagName := "div", attributes := [("class", "foo bar sensitive")],
        width := 100, height := 50, matchesBlock := true, matchesHide := true,
        children := [] } (by decide) (by decide) (by decide)
    obtain ⟨ha, hb, _, hpres⟩ := h1 rfl rfl
    exact ⟨ha, hb, hpres "class" "foo bar sensitive" (by decide)⟩
  · obtain ⟨_, h2, _⟩ := serializeNodeWithId_redaction
      { tagName := "div", attributes := [("class", "blocked")],
        width := 100, height := 50, matchesBlock := true, matchesHide := false,
        children := [] } (by decide) (by decide) (by decide)
    obtain ⟨ha, _, hc⟩ := h2 rfl rfl
    exact ⟨ha, hc⟩
  · obtain ⟨_, _, h3⟩ := serializeNodeWithId_redaction
      { tagName := "div", attributes := [("class", "sensitive")],
        width := 100, height := 50, matchesBlock := false, matchesHide := true,
        children := [] } (by decide) (by decide) (by decide)
    exact (h3 rfl).2.1

/-- The textual separator marker emitted between the CSSOM-derived segment
and the literal text-node segment of a reconstructed stylesheet. -/
def cssSplitMarker : String := "/* rr_split */"

/-- Modelled from the spec (§4.7): the stylesheet-capture inputs of a
`<style>` element — the element's live CSSOM rule list in rule-list order
(each entry one rule's text), and the parsed rules of each text-node child
in document order. -/
structure StyleElementInput where
  liveRules : List String
  textChildren : List (List String)

/-- Modelled from the spec (§4.7): the `_cssText` reconstruction of
`serializeNodeWithId` for `<style>` elements, whose implementation is not
in the test-only sources.  The effective text concatenates every
currently-live CSSOM rule's text in rule order.  When the element has at
most one text-node child the live rule list fully accounts for it and the
rules are emitted as one segment; when later text nodes were interleaved
(appended after CSSOM insertions) their rules sit at the tail of the live
rule list, and the separator marker is emitted between the leading
CSSOM-derived segment and that literal text-node-derived tail. -/
def reconstructCssText (el : StyleElementInput) : String :=
  match el.textChildren with
  | [] => String.join el.liveRules
  | [_] => String.join el.liveRules
  | _ :: rest =>
    let literalCount := (rest.map List.length).foldl Nat.add 0
    let cssomSegment := el.liveRules.take (el.liveRules.length - literalCount)
    let literalSegment := el.liveRules.drop (el.liveRules.length - literalCount)
    String.join cssomSegment ++ cssSplitMarker ++ String.join literalSegment

/-- Claim C2: reconstructing the `_cssText` of a `<style>` element whose
sheet mixes literal text rules and CSSOM-inserted rules emits the
CSSOM-derived rules first in rule-list order (latest insertion first),
then the separator marker, then the literal text-node-derived rules; and
whenever the live rule list fully accounts for a single text child, no
separator is emitted and all rules are concatenated in rule-list order. -/
theorem reconstructCssText_props :
    (∀ (liveRules : List String) (child : List String),
      reconstructCssText { liveRules := liveRules, textChildren := [child] } =
        String.join liveRules) ∧
    (reconstructCssText
      { liveRules := ["section \x7bcolor: blue;\x7d", "body \x7bcolor: red;\x7d"],
        textChildren := [["body \x7bcolor: red;\x7d"]] } =
      "section \x7bcolor: blue;\x7dbody \x7bcolor: red;\x7d") ∧
    (reconstructCssText
      { liveRules := ["section.working \x7bcolor: pink;\x7d",
                      "body \x7bcolor: red;\x7d",
                      "section \x7bcolor: blue;\x7d"],
        textChildren := [["body \x7bcolor: red;\x7d"],
                         ["section \x7bcolor: blue;\x7d"]] } =
      "section.working \x7bcolor: pink;\x7dbody \x7bcolor: red;\x7d" ++
        cssSplitMarker ++ "section \x7bcolor: blue;\x7d") := by
  refine ⟨?_, rfl, rfl⟩
  intro liveRules child
  rfl

/-- Modelled from the spec (§4.3): the value of the host-like property on
the object returned by a node's root-resolution API (`getRootNode().host`):
absent, a real shadow-host element, or — under the detached-anchor browser
quirk — a plain string. -/
inductive HostProp : Type where
  | noHost
  | elementHost (host : Nat)
  | stringHost (s : String)
deriving DecidableEq, Repr

/-- Modelled from the spec (§4.3): the browser environment a node lives in.
Nodes are natural-number identities; `rootNode` is the result of the
node's root-resolution API, `host` the host-like property carried by each
node, `containedInDoc` whether the main document contains a node, and
`depthBound` a bound on the nesting depth of shadow trees (shadow nesting
in a real document is finite). -/
structure DomEnv where
  rootNode : Nat → Nat
  host : Nat → HostProp
  containedInDoc : Nat → Bool
  depthBound : Nat

/-- Modelled from the spec (§4.3): `getShadowHost` returns the shadow host
owning the shadow tree that directly contains the node, or null otherwise;
a string-typed host-like property (the detached-anchor quirk) is treated
as "no shadow host". -/
def getShadowHost (d : DomEnv) (n : Nat) : Option Nat :=
  match d.host (d.rootNode n) with
  | HostProp.elementHost h => some h
  | _ => none

/-- Iteration core of `getRootShadowHost`, fuelled by the environment's
shadow-nesting depth bound. -/
def getRootShadowHostAux (d : DomEnv) : Nat → Nat → Nat
  | 0, n => n
  | fuel + 1, n =>
    match getShadowHost d n with
    | none => n
    | some h => getRootShadowHostAux d fuel h

/-- Modelled from the spec (§4.3): `getRootShadowHost` walks
`getShadowHost` repeatedly until no further host is found, returning the
outermost host, or the node itself when it is never inside shadow DOM. -/
def getRootShadowHost (d : DomEnv) (n : Nat) : Nat :=
  getRootShadowHostAux d d.depthBound n

/-- Modelled from the spec (§4.3): `shadowHostInDom` is true iff the root
shadow host (or the node itself when not shadowed) is connected to the
main document. -/
def shadowHostInDom (d : DomEnv) (n : Nat) : Bool :=
  d.containedInDoc (getRootShadowHost d n)

/-- Modelled from the spec (§4.3): `inDom` is true iff the node is
connected to the document directly or transitively through shadow
boundaries. -/
def inDom (d : DomEnv) (n : Nat) : Bool :=
  d.containedInDoc n || shadowHostInDom d n

/-- The detached-anchor scenario: node 0 is a detached anchor element whose
`host` property is the string "example.com"; node 1 is its text child, and
the root-resolution API on the text child returns the anchor itself.
Nothing is connected to the document. -/
def detachedAnchorDom : DomEnv :=
  { rootNode := fun n => if n = 1 then 0 else n,
    host := fun n => if n = 0 then HostProp.stringHost "example.com"
                     else HostProp.noHost,
    containedInDoc := fun _ => false,
    depthBound := 4 }

/-- The same anchor after it is appended to the document: the text child's
root resolution now reaches the document (node 2, which carries no host),
and anchor, text child and document are all contained in the document. -/
def attachedAnchorDom : DomEnv :=
  { rootNode := fun n => if n = 1 then 2 else n,
    host := fun n => if n = 0 then HostProp.stringHost "example.com"
                     else HostProp.noHost,
    containedInDoc := fun n => n = 0 || n = 1 || n = 2,
    depthBound := 4 }

/-- Claim C8: a string-typed host-like property is never misinterpreted as
an actual shadow host — `getShadowHost` returns null whenever the resolved
root's host property is a string; and in the detached-anchor scenario the
text child has no shadow host, is its own root shadow host, and
`shadowHostInDom`/`inDom` are false while detached and true once the
anchor is attached to the document. -/
theorem shadowResolver_detachedAnchor (d : DomEnv) (n : Nat) (s : String) :
    (d.host (d.rootNode n) = HostProp.stringHost s →
      getShadowHost d n = none) ∧
    (getShadowHost detachedAnchorDom 1 = none ∧
     getRootShadowHost detachedAnchorDom 1 = 1 ∧
     shadowHostInDom detachedAnchorDom 1 = false ∧
     inDom detachedAnchorDom 1 = false) ∧
    (getShadowHost attachedAnchorDom 1 = none ∧
     getRootShadowHost attachedAnchorDom 1 = 1 ∧
     shadowHostInDom attachedAnchorDom 1 = true ∧
     inDom attachedAnchorDom 1 = true) := by
  refine ⟨?_, ⟨rfl, rfl, rfl, rfl⟩, ⟨rfl, rfl, rfl, rfl⟩⟩
  intro h
  simp [getShadowHost, h]

/-- Claim C8 witness: the universal guard applied to the detached anchor's
text child: its resolved root (the anchor) carries the string host
"example.com", and `getShadowHost` returns null on it. -/
theorem shadowResolver_detachedAnchor_witness :
    detachedAnchorDom.host (detachedAnchorDom.rootNode 1) =
      HostProp.stringHost "example.com" ∧
    getShadowHost detachedAnchorDom 1 = none := by
  exact ⟨rfl, (shadowResolver_detachedAnchor detachedAnchorDom 1 "example.com").1 rfl⟩

/-- Modelled from the spec (§4.4): the structured fields of a parsed
`@import` rule — href, media query list (its length and serialized text),
layer name (null, the empty string for a bare anonymous layer, or a
name), and supports condition (null or its text). -/
structure CSSImportRuleFields where
  href : String
  mediaLength : Nat
  mediaText : String
  layerName : Option String
  supportsText : Option String

/-- Double-quoted JSON-style string serialization of a URL: wraps the text
in double quotes and escapes any literal backslash or double quote inside
it (the escapes that matter for a CSS url token). -/
def jsonStringQuote (s : String) : String :=
  "\"" ++ String.join (s.toList.map fun c =>
    if c = '"' then "\\\""
    else if c = '\\' then "\\\\"
    else String.singleton c) ++ "\""

/-- Modelled from the spec (§4.4): `escapeImportStatement` is not present
in the test-only sources.  Per the spec it reconstructs the `@import`
rule's textual form from its structured fields rather than trusting the
captured text: the href is re-emitted as a quoted string with any literal
double quote escaped, followed — in order and each only if present — by
the layer clause (the bare keyword `layer` when the layer name is the
empty string), the supports clause, and the media list (only when it is
non-empty). -/
def escapeImportStatement (rule : CSSImportRuleFields) : String :=
  let statement := ["@import", "url(" ++ jsonStringQuote rule.href ++ ")"]
  let statement := statement ++
    (match rule.layerName with
     | some l => if l = "" then ["layer"] else ["layer(" ++ l ++ ")"]
     | none => [])
  let statement := statement ++
    (match rule.supportsText with
     | some s => ["supports(" ++ s ++ ")"]
     | none => [])
  let statement := statement ++
    (if rule.mediaLength > 0 then [rule.mediaText] else [])
  String.intercalate " " statement ++ ";"

/-- Claim C9: `escapeImportStatement` emits a literal double quote inside
the href escaped as a backslash-quote, and appends the layer clause, then
the supports clause, then the media list, each only when the field is
present — with an empty layer name yielding the bare keyword `layer` and
an empty media list yielding no media clause; shown on rebuilds of a rule
whose href ends in a literal quote with no clause, a supports clause, a
media list, a named layer, a bare layer, and all three clauses together. -/
theorem escapeImportStatement_props :
    escapeImportStatement
      { href := "/foo.css;900;800\"", mediaLength := 0, mediaText := "",
        layerName := none, supportsText := none } =
      "@import url(\"/foo.css;900;800\\\"\");" ∧
    escapeImportStatement
      { href := "/foo.css;900;800\"", mediaLength := 0, mediaText := "",
        layerName := none, supportsText := some "display: flex" } =
      "@import url(\"/foo.css;900;800\\\"\") supports(display: flex);" ∧
    escapeImportStatement
      { href := "/foo.css;900;800\"", mediaLength := 1,
        mediaText := "print, screen", layerName := none,
        supportsText := none } =
      "@import url(\"/foo.css;900;800\\\"\") print, screen;" ∧
    escapeImportStatement
      { href := "/foo.css;900;800\"", mediaLength := 0, mediaText := "",
        layerName := some "layer-1", supportsText := none } =
      "@import url(\"/foo.css;900;800\\\"\") layer(layer-1);" ∧
    escapeImportStatement
      { href := "/foo.css;900;800\"", mediaLength := 0, mediaText := "",
        layerName := some "", supportsText := none } =
      "@import url(\"/foo.css;900;800\\\"\") layer;" ∧
    escapeImportStatement
      { href := "/foo.css;900;800\"", mediaLength := 1,
        mediaText := "print, screen", layerName := some "layer-1",
        supportsText := some "display: flex" } =
      "@import url(\"/foo.css;900;800\\\"\") layer(layer-1) supports(display: flex) print, screen;" := by
  refine ⟨?_, ?_, ?_, ?_, ?_, ?_⟩ <;> rfl

/-- A character allowed in a URL scheme token (a letter of either case or
a plus sign). -/
def isSchemeChar (c : Char) : Bool :=
  (('a' ≤ c && c ≤ 'z') || ('A' ≤ c && c ≤ 'Z') || c == '+')

/-- Whether a string starts with a non-empty scheme followed by "://". -/
def hasScheme (s : String) : Bool :=
  let cs := s.toList
  let scheme := cs.takeWhile isSchemeChar
  match cs.drop scheme.length with
  | ':' :: '/' :: '/' :: _ => !scheme.isEmpty
  | _ => false

/-- The characters of a URL before its query string and fragment: stops at
the first question mark or hash. -/
def stripQueryFragment (s : String) : String :=
  String.mk (s.toList.takeWhile (fun c => !(c == '?') && !(c == '#')))

/-- The path component of an absolute URL (everything from the first slash
after the "scheme://host" part, or "/" when the URL has no path). -/
def pathAfterHost (s : String) : String :=
  let cs := s.toList
  let scheme := cs.takeWhile isSchemeChar
  let rest := cs.drop (scheme.length + 3)
  match rest.dropWhile (fun c => !(c == '/')) with
  | [] => "/"
  | l => String.mk l

/-- The directory part of a pathname: everything up to and including the
last slash. -/
def dirname (p : String) : String :=
  String.mk ((p.toList.reverse.dropWhile (fun c => !(c == '/'))).reverse)

/-- A character matched by the extension pattern `[0-9a-z]` (letters
case-insensitively, digits). -/
def isExtChar (c : Char) : Bool := c.isAlpha || c.isDigit

/-- The extension at the very end of a pathname: the maximal non-empty run
of extension characters at the end, provided it is preceded by a dot;
otherwise no extension. -/
def extensionMatch (pathname : String) : Option String :=
  let rev := pathname.toList.reverse
  let ext := rev.takeWhile isExtChar
  if ext.isEmpty then none
  else
    match rev.drop ext.length with
    | '.' :: _ => some (String.mk ext.reverse)
    | _ => none

/-- Modelled from the spec: URL resolution of `extractFileExtension`, whose
implementation is not in the test-only sources — the pathname of the URL
obtained by parsing `path` (resolved against `baseURL` when `path` is
relative), with query string and fragment ignored; `none` when neither the
path nor the supplied base parses as an absolute URL. -/
def parseURLPathname (path : String) (baseURL : Option String) : Option String :=
  let p := stripQueryFragment path
  if hasScheme p then some (pathAfterHost p)
  else
    match baseURL with
    | none => none
    | some base =>
      let b := stripQueryFragment base
      if hasScheme b then
        match p.toList with
        | '/' :: _ => some p
        | _ => some (dirname (pathAfterHost b) ++ p)
      else none

/-- Modelled from the spec: `extractFileExtension` is not present in the
test-only sources — it parses the path (against the optional base URL) and
returns the extension at the end of the resulting pathname, or null when
the URL cannot be parsed or its final path segment has no extension. -/
def extractFileExtension (path : String) (baseURL : Option String) : Option String :=
  (parseURLPathname path baseURL).bind extensionMatch

/-- Claim C10: `extractFileExtension` returns the text after the last dot
of the URL's final path segment, ignoring query string and fragment,
resolving relative paths against the optional base URL, and returns null —
rather than failing — for a trailing-slash directory path (in general, for
any pathname ending in a slash) and for a path that cannot be parsed
against the given base. -/
theorem extractFileExtension_props :
    extractFileExtension "https://example.com/styles/main.css" none = some "css" ∧
    extractFileExtension "styles/main.css" (some "https://example.com/") = some "css" ∧
    extractFileExtension "https://example.com/scripts/app.js?version=1.0" none = some "js" ∧
    extractFileExtension "https://example.com/styles/main.css#section1" none = some "css" ∧
    extractFileExtension "https://example.com/scripts/app.js?version=1.0#section1" none = some "js" ∧
    extractFileExtension "https://example.com/path/to/directory/" none = none ∧
    extractFileExtension "!@#$%^&*()" (some "invalid") = none ∧
    extractFileExtension "https://example.com/scripts/app.min.js?version=1.0" none = some "js" ∧
    (∀ s : String, extensionMatch (s ++ "/") = none) := by
  refine ⟨rfl, rfl, rfl, rfl, rfl, rfl, rfl, rfl, ?_⟩
  intro s
  have hrev : (s ++ "/").toList.reverse = '/' :: s.toList.reverse := by
    show (s ++ "/").data.reverse = '/' :: s.data.reverse
    rw [String.data_append, List.reverse_append]
    rfl
  simp [extensionMatch, hrev, isExtChar]

/-- The single-quote character (written by code point to keep the source
free of quote-character literals). -/
def squote : Char := Char.ofNat 39

/-- The double-quote character (written by code point to keep the source
free of quote-character literals). -/
def dquote : Char := Char.ofNat 34

/-- Splits a character list on a separator character (the analogue of the
JavaScript `split` used on URL strings). -/
def splitOnChar (sep : Char) : List Char → List (List Char)
  | [] => [[]]
  | c :: rest =>
    let r := splitOnChar sep rest
    if c = sep then [] :: r
    else
      match r with
      | h :: t => (c :: h) :: t
      | [] => [[c]]

/-- Joins character lists with a separator character. -/
def joinWithChar (sep : Char) : List (List Char) → List Char
  | [] => []
  | [l] => l
  | l :: rest => l ++ sep :: joinWithChar sep rest

/-- Whether a character list contains two adjacent slashes. -/
def containsSlashSlash : List Char → Bool
  | '/' :: '/' :: _ => true
  | _ :: rest => containsSlashSlash rest
  | [] => false

/-- Modelled from the spec (§4.4): whether a URL target is already
absolute — it starts with two slashes, optionally preceded by a non-empty
scheme (letters or plus) and a colon. -/
def hasProtocol (s : String) : Bool :=
  let cs := s.toList
  match cs with
  | '/' :: '/' :: _ => true
  | _ =>
    let scheme := cs.takeWhile isSchemeChar
    match cs.drop scheme.length with
    | ':' :: '/' :: '/' :: _ => !scheme.isEmpty
    | _ => false

/-- Lower-cases an ASCII letter, leaving other characters unchanged. -/
def charLower (c : Char) : Char :=
  if 'A' ≤ c && c ≤ 'Z' then Char.ofNat (c.toNat + 32) else c

/-- Whether a URL target starts (case-insensitively) with "www.". -/
def isWWWUrl (s : String) : Bool :=
  match s.toList.map charLower with
  | 'w' :: 'w' :: 'w' :: '.' :: _ => true
  | _ => false

/-- Modelled from the spec (§4.4): whether a URL target is a data URL
(starts, case-insensitively, with the `data:` scheme). -/
def isDataURI (s : String) : Bool :=
  match s.toList.map charLower with
  | 'd' :: 'a' :: 't' :: 'a' :: ':' :: _ => true
  | _ => false

/-- Modelled from the spec (§4.4): the origin ("scheme://host") of the base
stylesheet URL, used to absolutize root-relative targets — the first three
slash-separated fields when the URL carries a "//", else its first field,
with any query string stripped. -/
def extractOrigin (url : String) : String :=
  let cs := url.toList
  let parts := splitOnChar '/' cs
  let origin :=
    if containsSlashSlash cs then joinWithChar '/' (parts.take 3)
    else parts.headD []
  String.mk (origin.takeWhile (fun c => !(c == '?')))

/-- Modelled from the spec (§4.4): resolution of a relative target against
the base stylesheet URL — the base's last path segment is dropped and the
target's segments are applied on top, with `.` segments skipped and `..`
segments popping one segment. -/
def resolveRelative (href filePath : String) : String :=
  let stack := (splitOnChar '/' href.toList).dropLast
  let parts := splitOnChar '/' filePath.toList
  let final := parts.foldl
    (fun st part =>
      if part = ['.'] then st
      else if part = ['.', '.'] then st.dropLast
      else st ++ [part]) stack
  String.mk (joinWithChar '/' final)

/-- Modelled from the spec (§4.4): the rewrite applied to one url(...)
token's target — the empty target, absolute URLs (protocol or www
prefixes) and data URLs pass through unchanged; a root-relative target is
prefixed by the base URL's origin; any other target is resolved
relatively against the base URL. -/
def absolutifyTarget (href filePath : String) : String :=
  if filePath = "" then filePath
  else if hasProtocol filePath || isWWWUrl filePath then filePath
  else if isDataURI filePath then filePath
  else
    match filePath.toList with
    | '/' :: _ => extractOrigin href ++ filePath
    | _ => resolveRelative href filePath

/-- Scans a quoted url token body for its closing quote: the content ends
at the first occurrence of the quote character immediately followed by a
closing parenthesis (so nested other-style quotes and spaces stay part of
the target); fails when no such close exists. -/
def takeQuoted (q : Char) : List Char → Option (List Char × List Char)
  | [] => none
  | [_] => none
  | c :: d :: rest =>
    if c = q ∧ d = ')' then some ([], rest)
    else (takeQuoted q (d :: rest)).map (fun p => (c :: p.1, p.2))

/-- Scans an unquoted url token body: the content ends at the first closing
parenthesis; fails when none exists. -/
def takeUnquoted : List Char → Option (List Char × List Char)
  | [] => none
  | c :: rest =>
    if c = ')' then some ([], rest)
    else (takeUnquoted rest).map (fun p => (c :: p.1, p.2))

/-- Re-emits one url token with an unquoted rewritten target. -/
def urlTokenNoQuote (target : String) : List Char :=
  'u' :: 'r' :: 'l' :: '(' :: (target.toList ++ [')'])

/-- Re-emits one url token with the rewritten target wrapped in the same
quote character the input used. -/
def urlTokenQuoted (q : Char) (target : String) : List Char :=
  'u' :: 'r' :: 'l' :: '(' :: q :: (target.toList ++ [q, ')'])

/-- Parses the characters following "url(" as one token body and returns
the rewritten token text together with the unconsumed remainder; when the
body opens with a quote but that quote style has no proper close, the body
is re-parsed as unquoted (the quote character then belongs to the target),
mirroring the alternation of the token pattern. -/
def parseUrlBody (href : String) (rest : List Char) : Option (List Char × List Char) :=
  match rest with
  | c :: rest2 =>
    if c = dquote ∨ c = squote then
      match takeQuoted c rest2 with
      | some (content, rem) =>
        some (urlTokenQuoted c (absolutifyTarget href (String.mk content)), rem)
      | none =>
        (takeUnquoted rest).map
          (fun p => (urlTokenNoQuote (absolutifyTarget href (String.mk p.1)), p.2))
    else
      (takeUnquoted rest).map
        (fun p => (urlTokenNoQuote (absolutifyTarget href (String.mk p.1)), p.2))
  | [] => none

/-- Fuelled scanner over the stylesheet text: rewrites every url(...)
token in place and copies every other character unchanged.  Each step
consumes at least one input character, so fuel equal to the input length
is sufficient. -/
def absolutifyScan (href : String) : Nat → List Char → List Char
  | 0, cs => cs
  | fuel + 1, cs =>
    match cs with
    | 'u' :: 'r' :: 'l' :: '(' :: rest =>
      (match parseUrlBody href rest with
       | some (tok, rem) => tok ++ absolutifyScan href fuel rem
       | none => cs)
    | c :: rest => c :: absolutifyScan href fuel rest
    | [] => []

/-- Modelled from the spec (§4.4): `absolutifyURLs` is not present in the
test-only sources.  Per the spec it scans captured CSS text for url(...)
tokens (quoted either way or unquoted), rewrites relative targets to fully
qualified URLs resolved against the supplied base URL, passes absolute
URLs and data URLs through unchanged, and preserves the quoting style of
every token. -/
def absolutifyURLs (cssText : String) (href : String) : String :=
  String.mk (absolutifyScan href cssText.toList.length cssText.toList)

/-- Claim C6: `absolutifyURLs` is the identity on url(...) tokens holding
absolute URLs, data URLs, and the empty string (universally at the token
level, and on the concrete absolute/data/empty inputs of the suite); a
relative target is rewritten to its resolution against the base
`http://localhost/css/style.css` (`a.jpg` and `./a.jpg` to
`http://localhost/css/a.jpg`; `../a.jpg` and `/a.jpg` to
`http://localhost/a.jpg`); the quoting style of each token — none, single
or double — is preserved; every url(...) occurrence in the input is
rewritten; and quoted data-URI targets containing spaces or nested quotes
round-trip unchanged. -/
theorem absolutifyURLs_props (href t : String) :
    ((hasProtocol t || isWWWUrl t) = true → absolutifyTarget href t = t) ∧
    (isDataURI t = true → absolutifyTarget href t = t) ∧
    absolutifyTarget href "" = "" ∧
    absolutifyURLs "url(a.jpg)" "http://localhost/css/style.css" =
      "url(http://localhost/css/a.jpg)" ∧
    absolutifyURLs "url(\"./a.jpg\")" "http://localhost/css/style.css" =
      "url(\"http://localhost/css/a.jpg\")" ∧
    absolutifyURLs "url(\"../a.jpg\")" "http://localhost/css/style.css" =
      "url(\"http://localhost/a.jpg\")" ∧
    absolutifyURLs "url(\"/a.jpg\")" "http://localhost/css/style.css" =
      "url(\"http://localhost/a.jpg\")" ∧
    absolutifyURLs "url(\"http://localhost/a.jpg\")" "http://localhost/css/style.css" =
      "url(\"http://localhost/a.jpg\")" ∧
    absolutifyURLs "url(\x27./a.jpg\x27)" "http://localhost/css/style.css" =
      "url(\x27http://localhost/css/a.jpg\x27)" ∧
    absolutifyURLs "url(./a.jpg)" "http://localhost/css/style.css" =
      "url(http://localhost/css/a.jpg)" ∧
    absolutifyURLs
      "background-image: url(images/b.jpg);background: #aabbcc url(images/a.jpg) 50% 50% repeat;"
      "http://localhost/css/style.css" =
      "background-image: url(http://localhost/css/images/b.jpg);background: #aabbcc url(http://localhost/css/images/a.jpg) 50% 50% repeat;" ∧
    absolutifyURLs "url(data:image/gif;base64,ABC)" "http://localhost/css/style.css" =
      "url(data:image/gif;base64,ABC)" ∧
    absolutifyURLs "url(data:application/font-woff;base64,d09GMgABAAAAAAm)"
      "http://localhost/css/style.css" =
      "url(data:application/font-woff;base64,d09GMgABAAAAAAm)" ∧
    absolutifyURLs
      "url(\"data:image/svg+xml;charset=utf-8,%3Csvg xmlns=\x27http://www.w3.org/2000/svg\x27 viewBox=\x270 0 8 8\x27%3E%3Cpath fill=\x27%2328a745\x27 d=\x27M3\x27/%3E%3C/svg%3E\")"
      "http://localhost/css/style.css" =
      "url(\"data:image/svg+xml;charset=utf-8,%3Csvg xmlns=\x27http://www.w3.org/2000/svg\x27 viewBox=\x270 0 8 8\x27%3E%3Cpath fill=\x27%2328a745\x27 d=\x27M3\x27/%3E%3C/svg%3E\")" ∧
    absolutifyURLs
      "url(\x27data:image/svg+xml;utf8,<svg width=\"28\" height=\"32\" viewBox=\"0 0 28 32\" xmlns=\"http://www.w3.org/2000/svg\"><path d=\"M27 14C28\" fill=\"white\"/></svg>\x27)"
      "http://localhost/css/style.css" =
      "url(\x27data:image/svg+xml;utf8,<svg width=\"28\" height=\"32\" viewBox=\"0 0 28 32\" xmlns=\"http://www.w3.org/2000/svg\"><path d=\"M27 14C28\" fill=\"white\"/></svg>\x27)" ∧
    absolutifyURLs
      "url(\"data:image/svg+xml;utf8,<svg width=\"28\" height=\"32\" viewBox=\"0 0 28 32\" xmlns=\"http://www.w3.org/2000/svg\"><path d=\"M27 14C28\" fill=\"white\"/></svg>\")"
      "http://localhost/css/style.css" =
      "url(\"data:image/svg+xml;utf8,<svg width=\"28\" height=\"32\" viewBox=\"0 0 28 32\" xmlns=\"http://www.w3.org/2000/svg\"><path d=\"M27 14C28\" fill=\"white\"/></svg>\")" ∧
    absolutifyURLs "url(\x27\x27)" "http://localhost/css/style.css" = "url(\x27\x27)" := by
  refine ⟨?_, ?_, rfl, rfl, rfl, rfl, rfl, rfl, rfl, rfl, rfl, rfl, rfl, rfl,
    rfl, rfl, rfl⟩
  · intro h
    unfold absolutifyTarget
    rw [h]
    split
    · rfl
    · rfl
  · intro h
    unfold absolutifyTarget
    rw [h]
    split
    · rfl
    split
    · rfl
    · rfl

/-- Claim C6 witness: the universal token-level identities applied to the
concrete absolute URL `http://localhost/a.jpg` and the concrete data URL
`data:image/gif;base64,ABC` against the suite's base URL. -/
theorem absolutifyURLs_props_witness :
    absolutifyTarget "http://localhost/css/style.css" "http://localhost/a.jpg" =
      "http://localhost/a.jpg" ∧
    absolutifyTarget "http://localhost/css/style.css" "data:image/gif;base64,ABC" =
      "data:image/gif;base64,ABC" := by
  refine ⟨?_, ?_⟩
  · exact (absolutifyURLs_props "http://localhost/css/style.css"
      "http://localhost/a.jpg").1 (by decide)
  · exact ((absolutifyURLs_props "http://localhost/css/style.css"
      "data:image/gif;base64,ABC").2).1 (by decide)
